import Mathlib

/-!
Shallow embedding of the token lifecycle and verification engine of the
simple-auth-jwt service.

Source files embedded:
  - `dependencies/auth.py` (the four verifier variants),
  - `app/api/v1/auth.py` (login / logout / refresh flows, API and web),
  - `db/crud/crud_token.py` (refresh-token data-access layer).
External collaborators (the jose JWT library, the AES cipher, the HMAC
digest, the token issuer, the pydantic schemas and the persistence
transaction boundary) are modelled abstractly: ciphers, digests and the
issuer are function parameters; the database table is an explicit list of
rows; commit/rollback become booleans recorded in the result.
-/

set_option autoImplicit false

namespace SimpleAuthJwt

/-- Process-wide JWT settings (`internal/config.py`, used by
`dependencies/auth.py` for every decode). -/
structure Settings where
  jwt_access_secret_key : String
  jwt_algorithm : String
deriving DecidableEq, Repr

/-- The claim set carried by an access token: `sub` (stringified user id,
possibly absent on a corrupted token), `iat` and `exp` as Unix timestamps. -/
structure Claims where
  sub : Option String
  iat : Int
  exp : Int
deriving DecidableEq, Repr

/-- A presented token string, as the jose decoder sees it: either not a
well-formed signed JWT at all, or a JWT signed with some key and algorithm
carrying a claim set. `raw` is the literal string value (Python truthiness
checks test it against the empty string). -/
inductive Tok where
  | malformed (raw : String)
  | signed (raw : String) (key : String) (alg : String) (claims : Claims)
deriving DecidableEq, Repr

/-- The literal string value of a presented token. -/
def Tok.raw : Tok → String
  | .malformed r => r
  | .signed r _ _ _ => r

/-- Outcome of `jose.jwt.decode`: a payload, an `ExpiredSignatureError`, or a
`JWTError`. -/
inductive DecodeResult where
  | ok (payload : Claims)
  | expiredSig
  | jwtError
deriving DecidableEq, Repr

/-- Model of `jose.jwt.decode(token, key, algorithms=[alg], options)`:
a malformed token or a key/algorithm mismatch raises `JWTError`; with the
`verify_exp` option enabled, a payload whose `exp` lies before the current
time raises `ExpiredSignatureError`; otherwise the payload is returned. -/
def jwtDecode (tok : Tok) (key alg : String) (verify_exp : Bool) (now : Int) :
    DecodeResult :=
  match tok with
  | .malformed _ => .jwtError
  | .signed _ k a c =>
    if k = key ∧ a = alg then
      if verify_exp ∧ c.exp < now then .expiredSig else .ok c
    else .jwtError

/-- The verified-request context (`schemas/token.py` `TokenUser`): subject,
the presented access token, and the presented refresh token when the flow
carries one. -/
structure TokenUser where
  sub : String
  access_token : String
  refresh_token : Option String
deriving DecidableEq, Repr

/-- Model of the pydantic validation `TokenUser(**payload, ...)`
(`schemas/token.py` is not under src/; per the spec the Token User context
requires the `sub` claim): construction succeeds exactly when the decoded
payload carries a subject, otherwise a `ValidationError` is raised. -/
def TokenUser.fromPayload (payload : Claims) (access_token : String)
    (refresh_token : Option String) : Option TokenUser :=
  match payload.sub with
  | some s => some ⟨s, access_token, refresh_token⟩
  | none => none

/-- Terminal states of one verifier run (`dependencies/auth.py`):
a verified Token User, `credentials_exception`, or
`token_expired_exception`. -/
inductive AuthResult where
  | verified (u : TokenUser)
  | credInvalid
  | tokenExpired
deriving DecidableEq, Repr

/-- Python `str.lower()`, modelled over the character list (character by
character, as CPython does for ASCII schemes). -/
def pyLower (s : String) : String :=
  ⟨s.data.map Char.toLower⟩

/-- Python truthiness test `not value` on an optional token string: true for
a missing value and for the empty string. -/
def falsy : Option Tok → Bool
  | none => true
  | some t => t.raw = ""

/-- Source `dependencies/auth.py`, `AuthorizeCookieUser.__call__`: strict cookie-pair
verifier. Both cookies must be present and non-empty; the access token is
decoded with full expiry enforcement; a decoded payload is validated into a
`TokenUser` carrying both presented values. -/
def AuthorizeCookieUser (cfg : Settings) (now : Int)
    (access_token refresh_token : Option Tok) : AuthResult :=
  if falsy access_token ∨ falsy refresh_token then .credInvalid
  else
    match access_token, refresh_token with
    | some atk, some rtk =>
      match jwtDecode atk cfg.jwt_access_secret_key cfg.jwt_algorithm true now with
      | .ok payload =>
        match TokenUser.fromPayload payload atk.raw (some rtk.raw) with
        | some u => .verified u
        | none => .credInvalid
      | .expiredSig => .tokenExpired
      | .jwtError => .credInvalid
    | _, _ => .credInvalid

/-- Source `dependencies/auth.py`, `AuthorizeRefreshCookieUser.__call__`:
expiry-lenient cookie-pair verifier — identical to the strict cookie variant
except that the decode runs with `verify_exp` set to `False`. The
`ExpiredSignatureError` handler is kept exactly as in the source. -/
def AuthorizeRefreshCookieUser (cfg : Settings) (now : Int)
    (access_token refresh_token : Option Tok) : AuthResult :=
  if falsy access_token ∨ falsy refresh_token then .credInvalid
  else
    match access_token, refresh_token with
    | some atk, some rtk =>
      match jwtDecode atk cfg.jwt_access_secret_key cfg.jwt_algorithm false now with
      | .ok payload =>
        match TokenUser.fromPayload payload atk.raw (some rtk.raw) with
        | some u => .verified u
        | none => .credInvalid
      | .expiredSig => .tokenExpired
      | .jwtError => .credInvalid
    | _, _ => .credInvalid

/-- An `Authorization` header after
`fastapi.security.utils.get_authorization_scheme_param`: the scheme before
the first space and the remaining parameter (`none` for an empty parameter
models the empty string). -/
structure AuthHeader where
  scheme : String
  param : Option Tok
deriving Repr

/-- Source `dependencies/auth.py`, `AuthorizeTokenUser.__call__`: strict
bearer-header verifier. A missing header yields an empty scheme and
parameter; the scheme must lower-case to "bearer" and the parameter must be
non-empty; decode runs with full expiry enforcement; no refresh token is
expected. -/
def AuthorizeTokenUser (cfg : Settings) (now : Int)
    (authorization : Option AuthHeader) : AuthResult :=
  let scheme := match authorization with | none => "" | some h => h.scheme
  let tokOpt := match authorization with | none => none | some h => h.param
  if pyLower scheme ≠ "bearer" ∨ falsy tokOpt then .credInvalid
  else
    match tokOpt with
    | some tk =>
      match jwtDecode tk cfg.jwt_access_secret_key cfg.jwt_algorithm true now with
      | .ok payload =>
        match TokenUser.fromPayload payload tk.raw none with
        | some u => .verified u
        | none => .credInvalid
      | .expiredSig => .tokenExpired
      | .jwtError => .credInvalid
    | none => .credInvalid

/-- Source `dependencies/auth.py`, `AuthorizeTokenRefresh.__call__`: expiry-lenient
body verifier. The request body carries `access_token` and `refresh_token`;
both must be non-empty; the decode runs with `verify_exp` set to `False`.
The `ExpiredSignatureError` handler is kept exactly as in the source. -/
def AuthorizeTokenRefresh (cfg : Settings) (now : Int)
    (access_token refresh_token : Option Tok) : AuthResult :=
  if falsy access_token ∨ falsy refresh_token then .credInvalid
  else
    match access_token, refresh_token with
    | some atk, some rtk =>
      match jwtDecode atk cfg.jwt_access_secret_key cfg.jwt_algorithm false now with
      | .ok payload =>
        match TokenUser.fromPayload payload atk.raw (some rtk.raw) with
        | some u => .verified u
        | none => .credInvalid
      | .expiredSig => .tokenExpired
      | .jwtError => .credInvalid
    | _, _ => .credInvalid

/-- The symmetric cipher (`app/core/security/encryption.py` `AESCipher`,
an external cryptographic primitive): reversible encrypt/decrypt over token
strings under one process-wide key, abstracted as a pair of functions. -/
structure Cipher where
  encrypt : String → String
  decrypt : String → String

/-- A freshly minted token pair (`schemas/token.py` `CreateTokenSchema`, the
value returned by `app/core/auth.py` `create_new_jwt_token`): both signed
tokens, the shared `iat`, and the two expiry timestamps. -/
structure JwtPair where
  access_token : String
  refresh_token : String
  iat : Int
  access_token_expires_in : Int
  refresh_token_expires_in : Int
deriving DecidableEq, Repr

/-- A stored Token Record (`models/token.py` row, fields as populated by
`InsertTokenSchema` in `app/api/v1/auth.py`): the plaintext access token is
the lookup key, the refresh token is stored only as ciphertext next to its
blind-index digest, with issue and expiry timestamps. -/
structure TokenRecord where
  user_id : Int
  access_token : String
  refresh_token : String
  refresh_token_key : String
  issued_at : Int
  expires_at : Int
deriving DecidableEq, Repr

/-- Schema `UpdateTokenSchema` of `schemas/token.py`, as populated by the refresh
flows: the rotation request keyed by the old access token. -/
structure UpdateTokenSchema where
  user_id : Int
  old_access_token : String
  new_access_token : String
  refresh_token_key : String
  refresh_token : String
  expires_at : Int
deriving DecidableEq, Repr

/-- Schema `TokenSchema` of `schemas/token.py`: the refresh response body. -/
structure TokenSchema where
  access_token : String
  refresh_token : String
deriving DecidableEq, Repr

namespace RefreshTokenDAL

/-- Whether a row matches the natural key `(user_id, access_token)`. -/
def keyMatches (user_id : Int) (access_token : String) (r : TokenRecord) :
    Bool :=
  r.user_id = user_id ∧ r.access_token = access_token

/-- Modelled from the spec: `RefreshTokenDAL.exists(user_id, access_token)`
(called by the logout flows; absent from `db/crud/crud_token.py` under src/)
— existence probe by the natural key. -/
def existsKey (tbl : List TokenRecord) (user_id : Int) (access_token : String) :
    Bool :=
  tbl.any (keyMatches user_id access_token)

/-- Modelled from the spec: `RefreshTokenDAL.get(user_id, access_token)`
(called by the refresh flows; absent from `db/crud/crud_token.py` under
src/) — fetch the stored row by the natural key for comparison. -/
def get (tbl : List TokenRecord) (user_id : Int) (access_token : String) :
    Option TokenRecord :=
  tbl.find? (keyMatches user_id access_token)

/-- Source `db/crud/crud_token.py`, `RefreshTokenDAL.insert`: add the new row. -/
def insert (tbl : List TokenRecord) (r : TokenRecord) : List TokenRecord :=
  tbl ++ [r]

/-- Modelled from the spec: `RefreshTokenDAL.update(update_token)` (called
by the refresh flows; absent from `db/crud/crud_token.py` under src/) —
atomic row replacement keyed by `(user_id, old_access_token)`, rewriting the
matching row to the new access token, new ciphertext, new blind-index key
and new expiry. -/
def update (tbl : List TokenRecord) (u : UpdateTokenSchema) :
    List TokenRecord :=
  tbl.map fun r =>
    if keyMatches u.user_id u.old_access_token r then
      { r with
        access_token := u.new_access_token
        refresh_token := u.refresh_token
        refresh_token_key := u.refresh_token_key
        expires_at := u.expires_at }
    else r

/-- Modelled from the spec: `RefreshTokenDAL.delete(user_id, access_token)`
(called by the logout flows; absent from `db/crud/crud_token.py` under
src/) — remove the rows matching the natural key. -/
def delete (tbl : List TokenRecord) (user_id : Int) (access_token : String) :
    List TokenRecord :=
  tbl.filter fun r => ¬ keyMatches user_id access_token r

end RefreshTokenDAL

/-- The persistent state a flow's transaction touches: the token table and
the per-user last-login metadata (`UserDAL.update_last_login`, an external
collaborator, modelled as an association list from user id to login ip). -/
structure DB where
  table : List TokenRecord
  lastLogin : List (Int × String)
deriving DecidableEq, Repr

/-- Model of `UserDAL.update_last_login(user_id, login_ip)`. -/
def updateLastLogin (ll : List (Int × String)) (user_id : Int)
    (login_ip : String) : List (Int × String) :=
  (user_id, login_ip) :: ll.filter fun p => p.1 ≠ user_id

/-- What happened to the enclosing transaction: whether `session.commit()`
ran and whether `session.rollback()` ran. -/
structure TxnLog where
  committed : Bool
  rolledBack : Bool
deriving DecidableEq, Repr

/-- One handler run: the response outcome, the persistent state as visible
after the transaction ends, and the transaction log. -/
structure FlowResult (α : Type) where
  outcome : α
  db : DB
  txn : TxnLog
deriving DecidableEq, Repr

/-- Decimal value of a digit list. -/
def digitsVal (ds : List Char) : Nat :=
  ds.foldl (fun n c => 10 * n + (c.toNat - 48)) 0

/-- Model of Python `int(s)` on the token's `sub` claim, over the character
list: an optional leading minus followed by decimal digits; `none` models
the `ValueError` raised on a non-numeric subject. -/
def pyInt (s : String) : Option Int :=
  match s.data with
  | [] => none
  | '-' :: ds =>
    if ds ≠ [] ∧ ds.all (fun c => c.isDigit) then some (-(digitsVal ds : Int))
    else none
  | ds =>
    if ds.all (fun c => c.isDigit) then some ((digitsVal ds : Int)) else none

/-- Response outcomes of `api_login`. -/
inductive LoginOutcome where
  | unauthorized
  | storageFailed
  | success (token : JwtPair)
deriving DecidableEq, Repr

/-- Response outcomes of `web_login`: on success the handler sets the two
httpOnly cookies instead of returning the pair. -/
inductive WebLoginOutcome where
  | unauthorized
  | storageFailed
  | success (cookies : List (String × String))
deriving DecidableEq, Repr

/-- HTTP status of an `api_login` / `web_login` response, as set by
`app/api/v1/auth.py`. -/
def LoginOutcome.status : LoginOutcome → Nat
  | .unauthorized => 401
  | .storageFailed => 500
  | .success _ => 200

/-- Source `app/api/v1/auth.py`, `api_login`. The external email lookup and
credential predicate (`UserDAL.get_user_from_email`, `authenticate`) are
abstracted into `user_id` and `is_login`; `storageFails` models the
persistence layer raising inside the try block (insert or last-login
update). On failure the transaction is rolled back and the handler answers
500; on success the record is inserted, last login updated, and the
transaction committed. -/
def api_login (aes : Cipher) (hmac : String → String)
    (issue : String → JwtPair) (user_id : Int) (is_login : Bool)
    (login_ip : String) (storageFails : Bool) (db : DB) :
    FlowResult LoginOutcome :=
  if ¬ is_login then ⟨.unauthorized, db, ⟨false, false⟩⟩
  else
    let token := issue (toString user_id)
    let insert_refresh_token : TokenRecord :=
      { user_id := user_id
        access_token := token.access_token
        refresh_token := aes.encrypt token.refresh_token
        refresh_token_key := hmac token.refresh_token
        issued_at := token.iat
        expires_at := token.refresh_token_expires_in }
    if storageFails then ⟨.storageFailed, db, ⟨false, true⟩⟩
    else
      ⟨.success token,
        ⟨RefreshTokenDAL.insert db.table insert_refresh_token,
          updateLastLogin db.lastLogin user_id login_ip⟩,
        ⟨true, false⟩⟩

/-- Source `app/api/v1/auth.py`, `web_login`: same authentication, minting and
storage steps as `api_login`; on success the handler sets the
`access_token` and `refresh_token` httpOnly cookies. -/
def web_login (aes : Cipher) (hmac : String → String)
    (issue : String → JwtPair) (user_id : Int) (is_login : Bool)
    (login_ip : String) (storageFails : Bool) (db : DB) :
    FlowResult WebLoginOutcome :=
  if ¬ is_login then ⟨.unauthorized, db, ⟨false, false⟩⟩
  else
    let token := issue (toString user_id)
    let insert_refresh_token : TokenRecord :=
      { user_id := user_id
        access_token := token.access_token
        refresh_token := aes.encrypt token.refresh_token
        refresh_token_key := hmac token.refresh_token
        issued_at := token.iat
        expires_at := token.refresh_token_expires_in }
    if storageFails then ⟨.storageFailed, db, ⟨false, true⟩⟩
    else
      ⟨.success [("access_token", token.access_token),
                 ("refresh_token", token.refresh_token)],
        ⟨RefreshTokenDAL.insert db.table insert_refresh_token,
          updateLastLogin db.lastLogin user_id login_ip⟩,
        ⟨true, false⟩⟩

/-- Response outcomes of the logout handlers. `intError` is the
`ValueError` of `int(token.sub)` on a non-numeric subject (caught by the
handlers' except branches); `notFound` is the missing-record condition. -/
inductive LogoutOutcome where
  | intError
  | notFound
  | success
deriving DecidableEq, Repr

/-- HTTP status of a logout response, as set by `app/api/v1/auth.py`: both
error branches answer 404. -/
def LogoutOutcome.status : LogoutOutcome → Nat
  | .intError => 404
  | .notFound => 404
  | .success => 200

/-- Source `app/api/v1/auth.py`, `api_logout`: delete the stored record if it
exists (then commit); a missing record raises inside the try block, is
caught, rolled back and answered with 404. -/
def api_logout (token : TokenUser) (db : DB) : FlowResult LogoutOutcome :=
  match pyInt token.sub with
  | none => ⟨.intError, db, ⟨false, true⟩⟩
  | some uid =>
    if RefreshTokenDAL.existsKey db.table uid token.access_token then
      ⟨.success,
        ⟨RefreshTokenDAL.delete db.table uid token.access_token,
          db.lastLogin⟩,
        ⟨true, false⟩⟩
    else ⟨.notFound, db, ⟨false, true⟩⟩

/-- Source `app/api/v1/auth.py`, `web_logout`: same storage behaviour as
`api_logout` (the missing-record raise travels through the `ValueError`
branch instead of the generic one, still answered with 404); on success the
handler additionally clears both cookies. -/
def web_logout (token : TokenUser) (db : DB) : FlowResult LogoutOutcome :=
  match pyInt token.sub with
  | none => ⟨.intError, db, ⟨false, true⟩⟩
  | some uid =>
    if RefreshTokenDAL.existsKey db.table uid token.access_token then
      ⟨.success,
        ⟨RefreshTokenDAL.delete db.table uid token.access_token,
          db.lastLogin⟩,
        ⟨true, false⟩⟩
    else ⟨.notFound, db, ⟨false, true⟩⟩

/-- Response outcomes of `api_token_refresh`. `intError` is the uncaught
`ValueError` of `int(token.sub)`; `credInvalid` is the raised
`credentials_exception` (missing record or refresh-token mismatch);
`updateFailed` is the caught storage failure of the update. -/
inductive RefreshOutcome where
  | intError
  | credInvalid
  | updateFailed
  | success (t : TokenSchema)
deriving DecidableEq, Repr

/-- Response outcomes of `web_token_refresh`: on success the handler sets
refreshed cookies instead of returning a body. -/
inductive WebRefreshOutcome where
  | intError
  | credInvalid
  | updateFailed
  | success (cookies : List (String × String))
deriving DecidableEq, Repr

/-- HTTP status of an `api_token_refresh` response where
`app/api/v1/auth.py` fixes it explicitly: the caught update failure answers
404 and success answers 200. The status of `credentials_exception` is
defined in `app/core/exception.py`, which is not under src/, so it is left
unassigned here; an uncaught `ValueError` has no handler-set status. -/
def RefreshOutcome.status : RefreshOutcome → Option Nat
  | .intError => none
  | .credInvalid => none
  | .updateFailed => some 404
  | .success _ => some 200

/-- Source `app/api/v1/auth.py`, `api_token_refresh`: fetch the stored record by
`(int(token.sub), token.access_token)`; a missing record or a presented
refresh token differing from the decryption of the stored ciphertext raises
`credentials_exception` before any write; otherwise a fresh pair is minted
and the row is rewritten via update (the conditional-rotation branch in the
source is commented out). `storageFails` models the persistence layer
raising inside the try block: the transaction is rolled back and the
handler answers 404. -/
def api_token_refresh (aes : Cipher) (hmac : String → String)
    (issue : String → JwtPair) (storageFails : Bool) (token : TokenUser)
    (db : DB) : FlowResult RefreshOutcome :=
  match pyInt token.sub with
  | none => ⟨.intError, db, ⟨false, false⟩⟩
  | some uid =>
    match RefreshTokenDAL.get db.table uid token.access_token with
    | none => ⟨.credInvalid, db, ⟨false, false⟩⟩
    | some token_info =>
      if token.refresh_token ≠ some (aes.decrypt token_info.refresh_token)
      then ⟨.credInvalid, db, ⟨false, false⟩⟩
      else
        let new_token := issue token.sub
        let update_token : UpdateTokenSchema :=
          { user_id := uid
            old_access_token := token.access_token
            new_access_token := new_token.access_token
            refresh_token_key := hmac new_token.refresh_token
            refresh_token := aes.encrypt new_token.refresh_token
            expires_at := new_token.refresh_token_expires_in }
        if storageFails then ⟨.updateFailed, db, ⟨false, true⟩⟩
        else
          ⟨.success ⟨new_token.access_token, new_token.refresh_token⟩,
            ⟨RefreshTokenDAL.update db.table update_token, db.lastLogin⟩,
            ⟨true, false⟩⟩

/-- Source `app/api/v1/auth.py`, `web_token_refresh`: same lookup, comparison,
minting and update as `api_token_refresh`; on success the handler sets the
refreshed `access_token` and `refresh_token` httpOnly cookies. -/
def web_token_refresh (aes : Cipher) (hmac : String → String)
    (issue : String → JwtPair) (storageFails : Bool) (token : TokenUser)
    (db : DB) : FlowResult WebRefreshOutcome :=
  match pyInt token.sub with
  | none => ⟨.intError, db, ⟨false, false⟩⟩
  | some uid =>
    match RefreshTokenDAL.get db.table uid token.access_token with
    | none => ⟨.credInvalid, db, ⟨false, false⟩⟩
    | some token_info =>
      if token.refresh_token ≠ some (aes.decrypt token_info.refresh_token)
      then ⟨.credInvalid, db, ⟨false, false⟩⟩
      else
        let new_token := issue token.sub
        let update_token : UpdateTokenSchema :=
          { user_id := uid
            old_access_token := token.access_token
            new_access_token := new_token.access_token
            refresh_token_key := hmac new_token.refresh_token
            refresh_token := aes.encrypt new_token.refresh_token
            expires_at := new_token.refresh_token_expires_in }
        if storageFails then ⟨.updateFailed, db, ⟨false, true⟩⟩
        else
          ⟨.success [("access_token", new_token.access_token),
                     ("refresh_token", new_token.refresh_token)],
            ⟨RefreshTokenDAL.update db.table update_token, db.lastLogin⟩,
            ⟨true, false⟩⟩

/-- Response-encoding map from the API login outcome to the web login
outcome, following the spec's words for the web flow: the success pair is
carried as the two httpOnly cookies, failures are unchanged. Used to state
that `web_login` refines `api_login` up to response encoding. -/
def webLoginView : LoginOutcome → WebLoginOutcome
  | .unauthorized => .unauthorized
  | .storageFailed => .storageFailed
  | .success p =>
      .success [("access_token", p.access_token),
                ("refresh_token", p.refresh_token)]

/-- Response-encoding map from the API refresh outcome to the web refresh
outcome, following the spec's words for the web flow: the success body is
carried as the two refreshed cookies, failures are unchanged. -/
def webRefreshView : RefreshOutcome → WebRefreshOutcome
  | .intError => .intError
  | .credInvalid => .credInvalid
  | .updateFailed => .updateFailed
  | .success t =>
      .success [("access_token", t.access_token),
                ("refresh_token", t.refresh_token)]

/-- Apply a response-encoding map to a flow result, leaving the persistent
state and the transaction log untouched. -/
def FlowResult.mapOutcome {α β : Type} (f : α → β) (r : FlowResult α) :
    FlowResult β :=
  ⟨f r.outcome, r.db, r.txn⟩

/-! Concrete fixtures used to evaluate the flows on closed inputs. -/

/-- A concrete invertible cipher for closed evaluation. -/
def cipherEx : Cipher :=
  ⟨fun s => "enc:" ++ s, fun s => s.drop 4⟩

/-- A concrete keyed digest for closed evaluation. -/
def hashEx : String → String :=
  fun s => "h:" ++ s

/-- A concrete issuer for closed evaluation. -/
def issueEx : String → JwtPair :=
  fun s => ⟨"AT2." ++ s, "RT2." ++ s, 100, 700, 7000⟩

/-- Concrete JWT settings for closed evaluation. -/
def cfgEx : Settings := ⟨"sk", "HS256"⟩

/-- A concrete verified Token User for closed evaluation. -/
def userEx : TokenUser := ⟨"1", "AT1", some "RT"⟩

/-- The stored record matching `userEx` under `cipherEx`. -/
def recEx : TokenRecord := ⟨1, "AT1", "enc:RT", "h:RT", 0, 9999⟩

/-- A database holding exactly `recEx`. -/
def dbEx : DB := ⟨[recEx], []⟩

/-- An empty database. -/
def dbEmpty : DB := ⟨[], []⟩

/-- A concrete rotation request keyed by `recEx`'s access token. -/
def updEx : UpdateTokenSchema := ⟨1, "AT1", "AT2", "h:RT2", "enc:RT2", 7000⟩

/-! Helper lemmas shared by the claim theorems. -/

/-- A decode with `verify_exp` disabled can never raise
`ExpiredSignatureError`. -/
theorem jwtDecode_lenient_ne_expiredSig (tok : Tok) (k a : String)
    (now : Int) : jwtDecode tok k a false now ≠ .expiredSig := by
  cases tok with
  | malformed r => simp [jwtDecode]
  | signed r k' a' c =>
    simp only [jwtDecode]
    split <;> simp

/-- The two expiry-lenient verifiers agree definitionally. -/
theorem authorizeTokenRefresh_eq_refreshCookie (cfg : Settings) (now : Int)
    (a r : Option Tok) :
    AuthorizeTokenRefresh cfg now a r = AuthorizeRefreshCookieUser cfg now a r :=
  rfl

/-- The lenient cookie verifier never answers `tokenExpired`. -/
theorem refreshCookie_ne_tokenExpired (cfg : Settings) (now : Int)
    (a r : Option Tok) :
    AuthorizeRefreshCookieUser cfg now a r ≠ .tokenExpired := by
  unfold AuthorizeRefreshCookieUser
  split
  · simp
  · cases a with
    | none => simp
    | some atk =>
      cases r with
      | none => simp
      | some rtk =>
        cases h : jwtDecode atk cfg.jwt_access_secret_key cfg.jwt_algorithm
            false now with
        | ok payload =>
          simp only [h]
          cases TokenUser.fromPayload payload atk.raw (some rtk.raw) <;> simp
        | expiredSig => exact absurd h (jwtDecode_lenient_ne_expiredSig _ _ _ _)
        | jwtError => simp [h]

/-- C9: for every input, the two expiry-lenient verifiers
(`AuthorizeRefreshCookieUser` and `AuthorizeTokenRefresh`) never produce the
`tokenExpired` outcome — they decode with `verify_exp` disabled, so their
`ExpiredSignatureError` branch is unreachable — and every failure they can
produce is `credInvalid`. -/
theorem lenient_verifiers_never_tokenExpired (cfg : Settings) (now : Int)
    (a r : Option Tok) :
    (AuthorizeRefreshCookieUser cfg now a r ≠ .tokenExpired ∧
      AuthorizeTokenRefresh cfg now a r ≠ .tokenExpired) ∧
    ((∃ u, AuthorizeRefreshCookieUser cfg now a r = .verified u) ∨
      AuthorizeRefreshCookieUser cfg now a r = .credInvalid) ∧
    ((∃ u, AuthorizeTokenRefresh cfg now a r = .verified u) ∨
      AuthorizeTokenRefresh cfg now a r = .credInvalid) := by
  have h1 := refreshCookie_ne_tokenExpired cfg now a r
  have h2 : AuthorizeTokenRefresh cfg now a r ≠ .tokenExpired := by
    rw [authorizeTokenRefresh_eq_refreshCookie]
    exact h1
  refine ⟨⟨h1, h2⟩, ?_, ?_⟩
  · cases hc : AuthorizeRefreshCookieUser cfg now a r with
    | verified u => exact Or.inl ⟨u, rfl⟩
    | credInvalid => exact Or.inr rfl
    | tokenExpired => exact absurd hc h1
  · cases hc : AuthorizeTokenRefresh cfg now a r with
    | verified u => exact Or.inl ⟨u, rfl⟩
    | credInvalid => exact Or.inr rfl
    | tokenExpired => exact absurd hc h2

/-- Closed instance of `lenient_verifiers_never_tokenExpired` on a concrete
expired token. -/
theorem lenient_verifiers_never_tokenExpired_witness :
    AuthorizeRefreshCookieUser cfgEx 1000000
        (some (.signed "A" "sk" "HS256" ⟨some "1", 0, 5⟩))
        (some (.malformed "R")) ≠ .tokenExpired ∧
    AuthorizeTokenRefresh cfgEx 1000000
        (some (.signed "A" "sk" "HS256" ⟨some "1", 0, 5⟩))
        (some (.malformed "R")) ≠ .tokenExpired :=
  (lenient_verifiers_never_tokenExpired cfgEx 1000000
      (some (.signed "A" "sk" "HS256" ⟨some "1", 0, 5⟩))
      (some (.malformed "R"))).1

/-- C2: a presented access token whose signature verifies under the
configured key and algorithm and whose claims validate into a Token User is
accepted by both expiry-lenient verifiers with subject equal to its `sub`
claim, for every current time — in particular past its `exp`; a token whose
claims fail schema validation (missing `sub`) yields `credInvalid`. -/
theorem lenient_verifiers_verify_valid_claims (cfg : Settings) (now : Int)
    (raw : String) (claims : Claims) (rtk : Tok)
    (hraw : raw ≠ "") (hrt : rtk.raw ≠ "") :
    (∀ s, claims.sub = some s →
      AuthorizeRefreshCookieUser cfg now
          (some (.signed raw cfg.jwt_access_secret_key cfg.jwt_algorithm claims))
          (some rtk) = .verified ⟨s, raw, some rtk.raw⟩ ∧
      AuthorizeTokenRefresh cfg now
          (some (.signed raw cfg.jwt_access_secret_key cfg.jwt_algorithm claims))
          (some rtk) = .verified ⟨s, raw, some rtk.raw⟩) ∧
    (claims.sub = none →
      AuthorizeRefreshCookieUser cfg now
          (some (.signed raw cfg.jwt_access_secret_key cfg.jwt_algorithm claims))
          (some rtk) = .credInvalid ∧
      AuthorizeTokenRefresh cfg now
          (some (.signed raw cfg.jwt_access_secret_key cfg.jwt_algorithm claims))
          (some rtk) = .credInvalid) := by
  simp only [Tok.raw] at hrt
  constructor
  · intro s hs
    constructor <;>
      simp [AuthorizeRefreshCookieUser, AuthorizeTokenRefresh, falsy, Tok.raw,
        jwtDecode, TokenUser.fromPayload, hraw, hrt, hs]
  · intro hs
    constructor <;>
      simp [AuthorizeRefreshCookieUser, AuthorizeTokenRefresh, falsy, Tok.raw,
        jwtDecode, TokenUser.fromPayload, hraw, hrt, hs]

/-- Closed instance of `lenient_verifiers_verify_valid_claims` on a token
whose `exp` (5) lies far before the current time (1000000). -/
theorem lenient_verifiers_verify_valid_claims_witness :
    AuthorizeRefreshCookieUser cfgEx 1000000
        (some (.signed "A" "sk" "HS256" ⟨some "1", 0, 5⟩))
        (some (.malformed "R")) = .verified ⟨"1", "A", some "R"⟩ ∧
    AuthorizeTokenRefresh cfgEx 1000000
        (some (.signed "A" "sk" "HS256" ⟨some "1", 0, 5⟩))
        (some (.malformed "R")) = .verified ⟨"1", "A", some "R"⟩ :=
  (lenient_verifiers_verify_valid_claims cfgEx 1000000 "A" ⟨some "1", 0, 5⟩
      (.malformed "R") (by decide) (by decide)).1 "1" rfl

/-- C3: transitions of the strict verifier variants (`AuthorizeTokenUser`
and `AuthorizeCookieUser`): a missing or malformed credential yields
`credInvalid`; a failed signature verification or failed schema validation
yields `credInvalid`; a valid signature whose expiry check fails yields
`tokenExpired`, which is distinct from `credInvalid`. -/
theorem strict_verifier_transitions (cfg : Settings) (now : Int) :
    (AuthorizeTokenUser cfg now none = .credInvalid) ∧
    (∀ hd : AuthHeader, pyLower hd.scheme ≠ "bearer" ∨ falsy hd.param = true →
      AuthorizeTokenUser cfg now (some hd) = .credInvalid) ∧
    (∀ a r : Option Tok, falsy a = true ∨ falsy r = true →
      AuthorizeCookieUser cfg now a r = .credInvalid) ∧
    (∀ (sch : String) (tk : Tok), pyLower sch = "bearer" → tk.raw ≠ "" →
      jwtDecode tk cfg.jwt_access_secret_key cfg.jwt_algorithm true now =
        .jwtError →
      AuthorizeTokenUser cfg now (some ⟨sch, some tk⟩) = .credInvalid) ∧
    (∀ atk rtk : Tok, atk.raw ≠ "" → rtk.raw ≠ "" →
      jwtDecode atk cfg.jwt_access_secret_key cfg.jwt_algorithm true now =
        .jwtError →
      AuthorizeCookieUser cfg now (some atk) (some rtk) = .credInvalid) ∧
    (∀ (sch : String) (tk : Tok) (payload : Claims),
      pyLower sch = "bearer" → tk.raw ≠ "" →
      jwtDecode tk cfg.jwt_access_secret_key cfg.jwt_algorithm true now =
        .ok payload →
      payload.sub = none →
      AuthorizeTokenUser cfg now (some ⟨sch, some tk⟩) = .credInvalid) ∧
    (∀ (atk rtk : Tok) (payload : Claims), atk.raw ≠ "" → rtk.raw ≠ "" →
      jwtDecode atk cfg.jwt_access_secret_key cfg.jwt_algorithm true now =
        .ok payload →
      payload.sub = none →
      AuthorizeCookieUser cfg now (some atk) (some rtk) = .credInvalid) ∧
    (∀ (sch raw : String) (claims : Claims), pyLower sch = "bearer" →
      raw ≠ "" → claims.exp < now →
      AuthorizeTokenUser cfg now
        (some ⟨sch, some (.signed raw cfg.jwt_access_secret_key
          cfg.jwt_algorithm claims)⟩) = .tokenExpired) ∧
    (∀ (raw : String) (claims : Claims) (rtk : Tok), raw ≠ "" →
      rtk.raw ≠ "" → claims.exp < now →
      AuthorizeCookieUser cfg now
        (some (.signed raw cfg.jwt_access_secret_key cfg.jwt_algorithm claims))
        (some rtk) = .tokenExpired) ∧
    ((.tokenExpired : AuthResult) ≠ .credInvalid) := by
  refine ⟨?_, ?_, ?_, ?_, ?_, ?_, ?_, ?_, ?_, by simp⟩
  · simp [AuthorizeTokenUser]
  · intro hd h
    simp only [AuthorizeTokenUser]
    rw [if_pos]
    rcases h with h | h
    · exact Or.inl h
    · exact Or.inr h
  · intro a r h
    simp only [AuthorizeCookieUser]
    rw [if_pos]
    rcases h with h | h
    · exact Or.inl h
    · exact Or.inr h
  · intro sch tk hsch htk hdec
    simp [AuthorizeTokenUser, falsy, hsch, htk, hdec]
  · intro atk rtk hatk hrtk hdec
    simp [AuthorizeCookieUser, falsy, hatk, hrtk, hdec]
  · intro sch tk payload hsch htk hdec hsub
    simp [AuthorizeTokenUser, falsy, hsch, htk, hdec, TokenUser.fromPayload,
      hsub]
  · intro atk rtk payload hatk hrtk hdec hsub
    simp [AuthorizeCookieUser, falsy, hatk, hrtk, hdec, TokenUser.fromPayload,
      hsub]
  · intro sch raw claims hsch hraw hexp
    simp [AuthorizeTokenUser, falsy, Tok.raw, hsch, hraw, jwtDecode, hexp]
  · intro raw claims rtk hraw hrt hexp
    simp only [Tok.raw] at hrt
    simp [AuthorizeCookieUser, falsy, Tok.raw, hraw, hrt, jwtDecode, hexp]

/-- Closed instances of `strict_verifier_transitions`: a missing header and
a missing cookie pair are rejected, and a validly signed but expired token
answers `tokenExpired`. -/
theorem strict_verifier_transitions_witness :
    AuthorizeTokenUser cfgEx 0 none = .credInvalid ∧
    AuthorizeCookieUser cfgEx 0 none none = .credInvalid ∧
    AuthorizeTokenUser cfgEx 100
        (some ⟨"Bearer", some (.signed "A" "sk" "HS256" ⟨some "1", 0, 50⟩)⟩) =
      .tokenExpired :=
  ⟨(strict_verifier_transitions cfgEx 0).1,
    (strict_verifier_transitions cfgEx 0).2.2.1 none none (Or.inl rfl),
    (strict_verifier_transitions cfgEx 100).2.2.2.2.2.2.2.1 "Bearer" "A"
      ⟨some "1", 0, 50⟩ (by decide) (by decide) (by decide)⟩

/-- The update leaves every row that does not match the rotation key
untouched. -/
theorem update_skips_unmatched (u : UpdateTokenSchema) :
    ∀ l : List TokenRecord,
      (∀ x ∈ l, ¬(x.user_id = u.user_id ∧
        x.access_token = u.old_access_token)) →
      RefreshTokenDAL.update l u = l := by
  intro l
  induction l with
  | nil => intro _; rfl
  | cons a t ih =>
    intro hl
    have ha := hl a (List.mem_cons_self a t)
    have ht := ih fun x hx => hl x (List.mem_cons_of_mem a hx)
    simp only [RefreshTokenDAL.update, List.map_cons] at ht ⊢
    rw [if_neg, ht]
    simpa [RefreshTokenDAL.keyMatches] using ha

/-- C4: the Refresh Token Store operations are keyed by the natural key
`(user_id, access_token)`: the existence probe agrees with membership of a
matching row; `get` returns a stored row carrying the key; `insert` adds
the record; `delete` removes exactly the rows matching the key; and
`update`, on a table holding a single row matching
`(user_id, old_access_token)`, rewrites that row in place to the new access
token, new refresh-token ciphertext, new blind-index key and new expiry,
leaving every other row unchanged. -/
theorem refresh_token_store_ops :
    (∀ (tbl : List TokenRecord) (uid : Int) (atk : String),
      RefreshTokenDAL.existsKey tbl uid atk = true ↔
        ∃ r ∈ tbl, r.user_id = uid ∧ r.access_token = atk) ∧
    (∀ (tbl : List TokenRecord) (uid : Int) (atk : String) (r : TokenRecord),
      RefreshTokenDAL.get tbl uid atk = some r →
        r ∈ tbl ∧ r.user_id = uid ∧ r.access_token = atk) ∧
    (∀ (tbl : List TokenRecord) (uid : Int) (atk : String),
      RefreshTokenDAL.get tbl uid atk = none →
        RefreshTokenDAL.existsKey tbl uid atk = false) ∧
    (∀ (tbl : List TokenRecord) (r : TokenRecord),
      r ∈ RefreshTokenDAL.insert tbl r) ∧
    (∀ (tbl : List TokenRecord) (uid : Int) (atk : String) (x : TokenRecord),
      x ∈ RefreshTokenDAL.delete tbl uid atk ↔
        x ∈ tbl ∧ ¬(x.user_id = uid ∧ x.access_token = atk)) ∧
    (∀ (l₁ l₂ : List TokenRecord) (r : TokenRecord) (u : UpdateTokenSchema),
      r.user_id = u.user_id → r.access_token = u.old_access_token →
      (∀ x ∈ l₁, ¬(x.user_id = u.user_id ∧
        x.access_token = u.old_access_token)) →
      (∀ x ∈ l₂, ¬(x.user_id = u.user_id ∧
        x.access_token = u.old_access_token)) →
      RefreshTokenDAL.update (l₁ ++ r :: l₂) u =
        l₁ ++ { r with
                access_token := u.new_access_token
                refresh_token := u.refresh_token
                refresh_token_key := u.refresh_token_key
                expires_at := u.expires_at } :: l₂) := by
  refine ⟨?_, ?_, ?_, ?_, ?_, ?_⟩
  · intro tbl uid atk
    simp [RefreshTokenDAL.existsKey, RefreshTokenDAL.keyMatches,
      List.any_eq_true]
  · intro tbl uid atk r h
    have hm := List.mem_of_find?_eq_some h
    have hp := List.find?_some h
    simp only [RefreshTokenDAL.keyMatches, decide_eq_true_eq] at hp
    exact ⟨hm, hp.1, hp.2⟩
  · intro tbl uid atk h
    rw [RefreshTokenDAL.get, List.find?_eq_none] at h
    simp only [RefreshTokenDAL.existsKey]
    rw [List.any_eq_false]
    intro x hx
    exact h x hx
  · intro tbl r
    simp [RefreshTokenDAL.insert]
  · intro tbl uid atk x
    simp only [RefreshTokenDAL.delete, RefreshTokenDAL.keyMatches,
      List.mem_filter, decide_eq_true_eq, decide_not, Bool.not_eq_true',
      decide_eq_false_iff_not]
  · intro l₁ l₂ r u hr1 hr2 h1 h2
    have e1 := update_skips_unmatched u l₁ h1
    have e2 := update_skips_unmatched u l₂ h2
    simp only [RefreshTokenDAL.update] at e1 e2 ⊢
    rw [List.map_append, List.map_cons, e1, e2, if_pos]
    simp [RefreshTokenDAL.keyMatches, hr1, hr2]

/-- Closed instance of `refresh_token_store_ops`: `get` on a singleton
table returns the stored row, and `update` rewrites it in place. -/
theorem refresh_token_store_ops_witness :
    (recEx ∈ [recEx] ∧ recEx.user_id = 1 ∧ recEx.access_token = "AT1") ∧
    RefreshTokenDAL.update [recEx] updEx =
      [{ recEx with
          access_token := "AT2"
          refresh_token := "enc:RT2"
          refresh_token_key := "h:RT2"
          expires_at := 7000 }] :=
  ⟨refresh_token_store_ops.2.1 [recEx] 1 "AT1" recEx rfl,
    refresh_token_store_ops.2.2.2.2.2 [] [] recEx updEx rfl rfl
      (by simp) (by simp)⟩

/-- C1: on every refresh request (API body and web cookie flows alike)
whose stored record is missing or whose presented refresh token differs
from the decryption of the stored ciphertext, both handlers raise the same
`credentials_exception` (the two causes are indistinguishable in the
result), the table is unchanged, no update runs and no commit occurs. -/
theorem refresh_mismatch_or_missing_credInvalid (aes : Cipher)
    (hmac : String → String) (issue : String → JwtPair) (storageFails : Bool)
    (u : TokenUser) (db : DB) (uid : Int)
    (hsub : pyInt u.sub = some uid)
    (hmiss : ∀ r, RefreshTokenDAL.get db.table uid u.access_token = some r →
      u.refresh_token ≠ some (aes.decrypt r.refresh_token)) :
    api_token_refresh aes hmac issue storageFails u db =
      ⟨.credInvalid, db, ⟨false, false⟩⟩ ∧
    web_token_refresh aes hmac issue storageFails u db =
      ⟨.credInvalid, db, ⟨false, false⟩⟩ := by
  cases hg : RefreshTokenDAL.get db.table uid u.access_token with
  | none =>
    constructor <;> simp [api_token_refresh, web_token_refresh, hsub, hg]
  | some r =>
    have hne := hmiss r hg
    constructor <;>
      simp [api_token_refresh, web_token_refresh, hsub, hg, hne]

/-- Closed instance of `refresh_mismatch_or_missing_credInvalid`: a refresh
against an empty store answers `credInvalid` with no mutation in both
flows. -/
theorem refresh_mismatch_or_missing_credInvalid_witness :
    api_token_refresh cipherEx hashEx issueEx false userEx dbEmpty =
      ⟨.credInvalid, dbEmpty, ⟨false, false⟩⟩ ∧
    web_token_refresh cipherEx hashEx issueEx false userEx dbEmpty =
      ⟨.credInvalid, dbEmpty, ⟨false, false⟩⟩ :=
  refresh_mismatch_or_missing_credInvalid cipherEx hashEx issueEx false
    userEx dbEmpty 1 (by decide)
    (by intro r hr; simp [RefreshTokenDAL.get, dbEmpty] at hr)

/-- C6: on every refresh whose lookup and comparison succeed, both flows
mint a brand-new pair via the issuer and persist the new refresh token
(encrypted, with its new blind index and new expiry) through update,
unconditionally: the stored record `r` is arbitrary — in particular its
remaining lifetime `r.expires_at` is irrelevant — and both the response and
the rewritten row carry only the freshly issued tokens. -/
theorem refresh_always_rotates (aes : Cipher) (hmac : String → String)
    (issue : String → JwtPair) (u : TokenUser) (db : DB) (uid : Int)
    (r : TokenRecord)
    (hsub : pyInt u.sub = some uid)
    (hget : RefreshTokenDAL.get db.table uid u.access_token = some r)
    (hmatch : u.refresh_token = some (aes.decrypt r.refresh_token)) :
    api_token_refresh aes hmac issue false u db =
      ⟨.success ⟨(issue u.sub).access_token, (issue u.sub).refresh_token⟩,
        ⟨RefreshTokenDAL.update db.table
            ⟨uid, u.access_token, (issue u.sub).access_token,
              hmac (issue u.sub).refresh_token,
              aes.encrypt (issue u.sub).refresh_token,
              (issue u.sub).refresh_token_expires_in⟩,
          db.lastLogin⟩,
        ⟨true, false⟩⟩ ∧
    web_token_refresh aes hmac issue false u db =
      ⟨.success [("access_token", (issue u.sub).access_token),
                 ("refresh_token", (issue u.sub).refresh_token)],
        ⟨RefreshTokenDAL.update db.table
            ⟨uid, u.access_token, (issue u.sub).access_token,
              hmac (issue u.sub).refresh_token,
              aes.encrypt (issue u.sub).refresh_token,
              (issue u.sub).refresh_token_expires_in⟩,
          db.lastLogin⟩,
        ⟨true, false⟩⟩ := by
  constructor <;>
    simp [api_token_refresh, web_token_refresh, hsub, hget, hmatch]

/-- Closed instance of `refresh_always_rotates`: a valid refresh on the
singleton store persists and returns only the freshly issued pair, even
though the stored refresh token still had lifetime left. -/
theorem refresh_always_rotates_witness :
    api_token_refresh cipherEx hashEx issueEx false userEx dbEx =
      ⟨.success ⟨"AT2.1", "RT2.1"⟩,
        ⟨RefreshTokenDAL.update dbEx.table
            ⟨1, "AT1", "AT2.1", "h:RT2.1", "enc:RT2.1", 7000⟩,
          dbEx.lastLogin⟩,
        ⟨true, false⟩⟩ ∧
    web_token_refresh cipherEx hashEx issueEx false userEx dbEx =
      ⟨.success [("access_token", "AT2.1"), ("refresh_token", "RT2.1")],
        ⟨RefreshTokenDAL.update dbEx.table
            ⟨1, "AT1", "AT2.1", "h:RT2.1", "enc:RT2.1", 7000⟩,
          dbEx.lastLogin⟩,
        ⟨true, false⟩⟩ :=
  refresh_always_rotates cipherEx hashEx issueEx userEx dbEx 1 recEx
    (by decide) (by decide) (by decide)

/-- After deleting by the natural key, the existence probe for that key
fails. -/
theorem existsKey_delete (tbl : List TokenRecord) (uid : Int) (atk : String) :
    RefreshTokenDAL.existsKey (RefreshTokenDAL.delete tbl uid atk) uid atk =
      false := by
  simp only [RefreshTokenDAL.existsKey, RefreshTokenDAL.delete]
  rw [List.any_eq_false]
  intro x hx
  have h2 := (List.mem_filter.mp hx).2
  exact of_decide_eq_true h2

/-- C7: a logout (API or web) whose presented token has no stored record is
a recoverable `TokenNotFound` outcome: the handler answers 404 without
deleting or committing; and of two consecutive logouts with the same access
token, the first deletes the record and succeeds while the second answers
`notFound`. -/
theorem logout_missing_token_notFound (u : TokenUser) (db : DB) (uid : Int)
    (hsub : pyInt u.sub = some uid) :
    (RefreshTokenDAL.existsKey db.table uid u.access_token = false →
      api_logout u db = ⟨.notFound, db, ⟨false, true⟩⟩ ∧
      web_logout u db = ⟨.notFound, db, ⟨false, true⟩⟩ ∧
      LogoutOutcome.status .notFound = 404) ∧
    (RefreshTokenDAL.existsKey db.table uid u.access_token = true →
      api_logout u db =
        ⟨.success,
          ⟨RefreshTokenDAL.delete db.table uid u.access_token, db.lastLogin⟩,
          ⟨true, false⟩⟩ ∧
      web_logout u db =
        ⟨.success,
          ⟨RefreshTokenDAL.delete db.table uid u.access_token, db.lastLogin⟩,
          ⟨true, false⟩⟩ ∧
      (api_logout u (api_logout u db).db).outcome = .notFound ∧
      (web_logout u (web_logout u db).db).outcome = .notFound) := by
  constructor
  · intro hex
    refine ⟨?_, ?_, rfl⟩ <;> simp [api_logout, web_logout, hsub, hex]
  · intro hex
    have h1 : api_logout u db =
        ⟨.success,
          ⟨RefreshTokenDAL.delete db.table uid u.access_token, db.lastLogin⟩,
          ⟨true, false⟩⟩ := by
      simp [api_logout, hsub, hex]
    have h2 : web_logout u db =
        ⟨.success,
          ⟨RefreshTokenDAL.delete db.table uid u.access_token, db.lastLogin⟩,
          ⟨true, false⟩⟩ := by
      simp [web_logout, hsub, hex]
    refine ⟨h1, h2, ?_, ?_⟩
    · rw [h1]
      simp [api_logout, hsub, existsKey_delete]
    · rw [h2]
      simp [web_logout, hsub, existsKey_delete]

/-- Closed instance of `logout_missing_token_notFound`: a logout against an
empty store answers `notFound`, and a second logout after a successful one
answers `notFound`. -/
theorem logout_missing_token_notFound_witness :
    api_logout userEx dbEmpty = ⟨.notFound, dbEmpty, ⟨false, true⟩⟩ ∧
    api_logout userEx dbEx =
      ⟨.success,
        ⟨RefreshTokenDAL.delete dbEx.table 1 "AT1", dbEx.lastLogin⟩,
        ⟨true, false⟩⟩ ∧
    (api_logout userEx (api_logout userEx dbEx).db).outcome = .notFound :=
  ⟨((logout_missing_token_notFound userEx dbEmpty 1 (by decide)).1
      (by decide)).1,
    ((logout_missing_token_notFound userEx dbEx 1 (by decide)).2
      (by decide)).1,
    ((logout_missing_token_notFound userEx dbEx 1 (by decide)).2
      (by decide)).2.2.1⟩

/-- C8: on every successful login (API and web), the inserted Token Record
carries the plaintext access token as key, the refresh token only as
`aes.encrypt` ciphertext, the blind index `hmac` of the plaintext refresh
token, `issued_at` from the pair's shared `iat` and `expires_at` from the
refresh expiry; the insert and the last-login update land in the same
committed transaction, and a storage failure rolls both back together. -/
theorem login_inserts_encrypted_record (aes : Cipher)
    (hmac : String → String) (issue : String → JwtPair) (user_id : Int)
    (ip : String) (db : DB) :
    api_login aes hmac issue user_id true ip false db =
      ⟨.success (issue (toString user_id)),
        ⟨RefreshTokenDAL.insert db.table
            ⟨user_id, (issue (toString user_id)).access_token,
              aes.encrypt (issue (toString user_id)).refresh_token,
              hmac (issue (toString user_id)).refresh_token,
              (issue (toString user_id)).iat,
              (issue (toString user_id)).refresh_token_expires_in⟩,
          updateLastLogin db.lastLogin user_id ip⟩,
        ⟨true, false⟩⟩ ∧
    web_login aes hmac issue user_id true ip false db =
      ⟨.success [("access_token", (issue (toString user_id)).access_token),
                 ("refresh_token", (issue (toString user_id)).refresh_token)],
        ⟨RefreshTokenDAL.insert db.table
            ⟨user_id, (issue (toString user_id)).access_token,
              aes.encrypt (issue (toString user_id)).refresh_token,
              hmac (issue (toString user_id)).refresh_token,
              (issue (toString user_id)).iat,
              (issue (toString user_id)).refresh_token_expires_in⟩,
          updateLastLogin db.lastLogin user_id ip⟩,
        ⟨true, false⟩⟩ ∧
    api_login aes hmac issue user_id true ip true db =
      ⟨.storageFailed, db, ⟨false, true⟩⟩ ∧
    web_login aes hmac issue user_id true ip true db =
      ⟨.storageFailed, db, ⟨false, true⟩⟩ := by
  refine ⟨?_, ?_, ?_, ?_⟩ <;> simp [api_login, web_login]

/-- C5 (amended): a persistence failure during the transactional writes
rolls back the enclosing transaction before being surfaced in every flow;
the login flows then answer 500, but the refresh flows answer 404. -/
theorem storage_failure_rolls_back (aes : Cipher) (hmac : String → String)
    (issue : String → JwtPair) (user_id : Int) (ip : String) (db : DB)
    (u : TokenUser) (uid : Int) (r : TokenRecord)
    (hsub : pyInt u.sub = some uid)
    (hget : RefreshTokenDAL.get db.table uid u.access_token = some r)
    (hmatch : u.refresh_token = some (aes.decrypt r.refresh_token)) :
    (api_login aes hmac issue user_id true ip true db =
        ⟨.storageFailed, db, ⟨false, true⟩⟩ ∧
      LoginOutcome.status .storageFailed = 500) ∧
    (web_login aes hmac issue user_id true ip true db =
        ⟨.storageFailed, db, ⟨false, true⟩⟩) ∧
    (api_token_refresh aes hmac issue true u db =
        ⟨.updateFailed, db, ⟨false, true⟩⟩ ∧
      RefreshOutcome.status .updateFailed = some 404) ∧
    (web_token_refresh aes hmac issue true u db =
        ⟨.updateFailed, db, ⟨false, true⟩⟩) := by
  refine ⟨⟨?_, rfl⟩, ?_, ⟨?_, rfl⟩, ?_⟩ <;>
    simp [api_login, web_login, api_token_refresh, web_token_refresh, hsub,
      hget, hmatch]

/-- Counterexample to C5 as stated: a persistence failure during the
refresh flow's update is answered with HTTP 404 (`Token Update failed`),
not 500. -/
theorem refresh_storage_failure_not_500 :
    api_token_refresh cipherEx hashEx issueEx true userEx dbEx =
      ⟨.updateFailed, dbEx, ⟨false, true⟩⟩ ∧
    RefreshOutcome.status .updateFailed = some 404 ∧
    ¬ RefreshOutcome.status .updateFailed = some 500 := by
  refine ⟨by decide, rfl, by decide⟩

/-- Closed instance of `storage_failure_rolls_back`. -/
theorem storage_failure_rolls_back_witness :
    api_login cipherEx hashEx issueEx 1 true "ip" true dbEx =
      ⟨.storageFailed, dbEx, ⟨false, true⟩⟩ ∧
    api_token_refresh cipherEx hashEx issueEx true userEx dbEx =
      ⟨.updateFailed, dbEx, ⟨false, true⟩⟩ :=
  ⟨(storage_failure_rolls_back cipherEx hashEx issueEx 1 "ip" dbEx userEx 1
      recEx (by decide) (by decide) (by decide)).1.1,
    (storage_failure_rolls_back cipherEx hashEx issueEx 1 "ip" dbEx userEx 1
      recEx (by decide) (by decide) (by decide)).2.2.1.1⟩

/-- C10: for every input and storage state, each web flow computes exactly
the API flow's state transition and transaction log, and its response is
the API outcome pushed through the response-encoding map (token pair as the
two httpOnly cookies): `web_login` refines `api_login` and
`web_token_refresh` refines `api_token_refresh` up to response encoding. -/
theorem web_flows_refine_api_flows (aes : Cipher) (hmac : String → String)
    (issue : String → JwtPair) (user_id : Int) (is_login : Bool)
    (ip : String) (storageFails : Bool) (u : TokenUser) (db db' : DB) :
    web_login aes hmac issue user_id is_login ip storageFails db =
      (api_login aes hmac issue user_id is_login ip storageFails db).mapOutcome
        webLoginView ∧
    web_token_refresh aes hmac issue storageFails u db' =
      (api_token_refresh aes hmac issue storageFails u db').mapOutcome
        webRefreshView := by
  constructor
  · cases is_login <;> cases storageFails <;>
      simp [web_login, api_login, FlowResult.mapOutcome, webLoginView]
  · cases hs : pyInt u.sub with
    | none =>
      simp [web_token_refresh, api_token_refresh, FlowResult.mapOutcome,
        webRefreshView, hs]
    | some uid =>
      cases hg : RefreshTokenDAL.get db'.table uid u.access_token with
      | none =>
        simp [web_token_refresh, api_token_refresh, FlowResult.mapOutcome,
          webRefreshView, hs, hg]
      | some r =>
        by_cases hm : u.refresh_token = some (aes.decrypt r.refresh_token)
        · cases storageFails <;>
            simp [web_token_refresh, api_token_refresh, FlowResult.mapOutcome,
              webRefreshView, hs, hg, hm]
        · simp [web_token_refresh, api_token_refresh, FlowResult.mapOutcome,
            webRefreshView, hs, hg, hm]

end SimpleAuthJwt
